import Mathlib

/-!
Verification of the friendship/relationship lifecycle of the
`albondigas-functions` repository against its natural-language specification.

The relationship core lives in `src/unnamed/part_004` (the authoritative,
fuller version of `src/functions/friends.js`): callable operations
`sendFriendRequest`, `acceptFriendRequest`, `rejectFriendRequest`,
`unfriend`, `blockUser`, `unblockUser`, `checkFriendshipStatus`,
`repairFriendshipState`, plus the out-of-transaction archival helper
`archiveUserVideos`.

We model the Firestore document stores touched by this code as a record of
partial maps, and each callable as a pure state transformer that also emits
the ordered list of transactional operations (`transaction.get` /
`transaction.set` / `transaction.update` / `transaction.delete`) it issues,
together with the list of archival side-effect invocations made after the
transaction.  Timestamps (`createdAt`, `updatedAt`, `serverTimestamp`) carry
no information relevant to any claim and are omitted from the records.
-/

namespace Albondigas

/-- A `friendships/{id}` document (canonical Relationship record). -/
structure Friendship where
  user1Id : String
  user2Id : String
  status : String
  initiatorId : Option String := none
  blockedBy : Option String := none
  deriving Repr, DecidableEq

/-- A `userFriendships/{owner}/friends/{other}` document (per-user Mirror). -/
structure Mirror where
  friendshipId : String
  status : String
  role : String
  deriving Repr, DecidableEq

/-- A `chats/{id}` document (derived Conversation record).  `isActive` is
`none` when the field is absent from the document, as on creation. -/
structure Chat where
  participants : List String
  isActive : Option Bool := none
  expirationDays : Option Nat := none
  deriving Repr, DecidableEq

/-- A message in the `chats/{chatId}/messages` subcollection (the
"message subtree" of a Conversation).  `isDeleted` is `none` when the field
is absent; Firestore `!=` queries only match documents that carry the field. -/
structure ChatMessage where
  senderId : String
  isDeleted : Option Bool := none
  isArchived : Bool := false
  archivedReason : Option String := none
  deriving Repr, DecidableEq

/-- A document of the top-level `messages` collection, which `blockUser`
queries by its `chatId` field. -/
structure TopMessage where
  chatId : String
  deriving Repr, DecidableEq

/-- A `friendshipEvents` document (append-only audit trail). -/
structure FriendshipEvent where
  friendshipId : String
  action : String
  initiatorId : String
  targetId : String
  deriving Repr, DecidableEq

/-- A `users/{uid}` document, as far as `sendFriendRequest` reads it. -/
structure UserDoc where
  uid : String
  email : String
  deriving Repr, DecidableEq

/-- The document stores touched by the relationship core.  `mirrors` is
indexed by (owner, other user). `chatMessages` maps a chat id to the
(docId, message) pairs of its `messages` subcollection. -/
structure DB where
  friendships : String → Option Friendship
  mirrors : String → String → Option Mirror
  chats : String → Option Chat
  chatMessages : String → List (String × ChatMessage)
  topMessages : List (String × TopMessage)
  events : List FriendshipEvent
  users : List UserDoc

/-- Kind of an operation issued on the Firestore transaction object. -/
inductive TxKind
  | get
  | set
  | update
  | delete
  deriving Repr, DecidableEq

/-- One operation issued on the transaction, in program order:
kind, collection path, document key. -/
structure TxOp where
  kind : TxKind
  coll : String
  key : String
  deriving Repr, DecidableEq

/-- An `HttpsError` thrown to the caller: Firebase error code and message. -/
structure HttpsErr where
  code : String
  message : String
  deriving Repr, DecidableEq

/-- The plain-object return value of a callable (`{success, error?}`). -/
structure Ret where
  success : Bool
  error : Option String := none
  deriving Repr, DecidableEq

/-- What a callable hands back to its caller: a returned plain object, or a
thrown `HttpsError`. -/
inductive CallResult where
  | ok (ret : Ret)
  | error (e : HttpsErr)
  deriving Repr, DecidableEq

/-- Result of running one callable: the value returned or error thrown, the
resulting document stores, the ordered transactional operation trace, and
the `archiveUserVideos(chatId, senderId)` side-effect calls issued after the
transaction committed. -/
structure OpResult where
  res : CallResult
  db : DB
  tx : List TxOp
  archives : List (String × String) := []

/-- Lexicographic comparison of char lists by code point, the comparison the
JS default array sort applies to string elements. -/
def charListLe : List Char → List Char → Bool
  | [], _ => true
  | _ :: _, [] => false
  | c :: cs, d :: ds =>
    if c.toNat < d.toNat then true
    else if d.toNat < c.toNat then false
    else charListLe cs ds

/-- String comparison used by the JS default sort on two-element arrays. -/
def strLe (a b : String) : Bool := charListLe a.data b.data

/-- `email.toLowerCase()` (ASCII case mapping). -/
def jsToLower (s : String) : String := ⟨s.data.map Char.toLower⟩

/-- `s.trim()`: strip whitespace from both ends. -/
def jsTrim (s : String) : String :=
  ⟨((s.data.dropWhile Char.isWhitespace).reverse.dropWhile Char.isWhitespace).reverse⟩

/-- `[a, b].sort()` on two string ids (JS default lexicographic sort). -/
def sortPair (a b : String) : String × String :=
  if strLe a b then (a, b) else (b, a)

/-- `[a, b].sort().join('_')`: the order-independent composite key used for
`friendships` and `chats` documents. -/
def pairKey (a b : String) : String :=
  (sortPair a b).1 ++ "_" ++ (sortPair a b).2

/-- Path key of a Mirror document, used only to label trace entries. -/
def mirrorKey (owner other : String) : String :=
  owner ++ "/" ++ other

/-- Store a `friendships/{k}` document. -/
def DB.setFriendship (db : DB) (k : String) (f : Friendship) : DB :=
  { db with friendships := fun k2 => if k2 = k then some f else db.friendships k2 }

/-- Delete a `friendships/{k}` document. -/
def DB.delFriendship (db : DB) (k : String) : DB :=
  { db with friendships := fun k2 => if k2 = k then none else db.friendships k2 }

/-- Store a `userFriendships/{owner}/friends/{other}` document. -/
def DB.setMirror (db : DB) (owner other : String) (m : Mirror) : DB :=
  { db with mirrors := fun o1 o2 =>
      if o1 = owner ∧ o2 = other then some m else db.mirrors o1 o2 }

/-- Delete a `userFriendships/{owner}/friends/{other}` document. -/
def DB.delMirror (db : DB) (owner other : String) : DB :=
  { db with mirrors := fun o1 o2 =>
      if o1 = owner ∧ o2 = other then none else db.mirrors o1 o2 }

/-- Store a `chats/{k}` document. -/
def DB.setChat (db : DB) (k : String) (c : Chat) : DB :=
  { db with chats := fun k2 => if k2 = k then some c else db.chats k2 }

/-- Delete a `chats/{k}` document. -/
def DB.delChat (db : DB) (k : String) : DB :=
  { db with chats := fun k2 => if k2 = k then none else db.chats k2 }

/-- Append a `friendshipEvents` document. -/
def DB.addEvent (db : DB) (ev : FriendshipEvent) : DB :=
  { db with events := db.events ++ [ev] }

/-- `db.collection('users').where('email','==',email).limit(1)`. -/
def findUserByEmail (db : DB) (email : String) : Option UserDoc :=
  db.users.find? (fun u => u.email = email)

/-- The transactional operations of a trace that are writes. -/
def txWrites (l : List TxOp) : List TxOp :=
  l.filter (fun op => op.kind ≠ TxKind.get)

/-- Number of writes issued on the transaction. -/
def writeCount (l : List TxOp) : Nat :=
  (txWrites l).length

/-- `true` iff no transactional read occurs after a transactional write,
the ordering Firestore's transaction contract requires. -/
def noReadAfterWriteAux : List TxOp → Bool → Bool
  | [], _ => true
  | op :: rest, seenWrite =>
    if op.kind = TxKind.get then !seenWrite && noReadAfterWriteAux rest seenWrite
    else noReadAfterWriteAux rest true

/-- All transactional reads of the trace precede all its writes. -/
def noReadAfterWrite (l : List TxOp) : Bool :=
  noReadAfterWriteAux l false

/-- Embedding of `archiveUserVideos(chatId, senderId, reason)`
(src/unnamed/part_004 lines 42-97): queries the chat's `messages`
subcollection for the sender's documents whose `isDeleted` field is present
and not `true` (Firestore `!=` semantics), skips already-archived ones and
marks the rest archived.  Batch splitting does not change the final state
and is not modelled. -/
def archiveUserVideos (db : DB) (chatId senderId : String)
    (reason : String := "unfriended") : DB :=
  { db with chatMessages := fun c =>
      if c = chatId then
        (db.chatMessages c).map (fun p =>
          if p.2.senderId = senderId ∧ p.2.isDeleted = some false ∧ p.2.isArchived = false
          then (p.1, { p.2 with isArchived := true, archivedReason := some reason })
          else p)
      else db.chatMessages c }

/-- Embedding of `sendFriendRequest` (src/unnamed/part_004 lines 259-388).
Looks the target user up by normalized email, rejects self-targeting and
existing pending/accepted/blocked relationships, then writes the
Relationship and both Mirrors in one batch (not a transaction, so the
transactional trace is empty). -/
def sendFriendRequest (db : DB) (senderId email : String) : OpResult :=
  if email = "" then
    { res := .error ⟨"invalid-argument", "Email is required"⟩, db := db, tx := [] }
  else
    let normalizedEmail := jsTrim (jsToLower email)
    match findUserByEmail db normalizedEmail with
    | none =>
      { res := .error ⟨"not-found", "User not found"⟩, db := db, tx := [] }
    | some targetUser =>
      let targetUserId := targetUser.uid
      if targetUserId = senderId then
        { res := .error ⟨"invalid-argument", "Cannot send friend request to yourself"⟩,
          db := db, tx := [] }
      else
        let friendshipId := pairKey senderId targetUserId
        let doWrites : OpResult :=
          let db1 := db.setFriendship friendshipId
            { user1Id := (sortPair senderId targetUserId).1
              user2Id := (sortPair senderId targetUserId).2
              status := "pending"
              initiatorId := some senderId
              blockedBy := none }
          let db2 := db1.setMirror senderId targetUserId
            ⟨friendshipId, "pending", "initiator"⟩
          let db3 := db2.setMirror targetUserId senderId
            ⟨friendshipId, "pending", "recipient"⟩
          { res := .ok ⟨true, none⟩, db := db3, tx := [] }
        match db.friendships friendshipId with
        | some data =>
          if data.status = "blocked" then
            { res := .error ⟨"not-found", "User not found"⟩, db := db, tx := [] }
          else if data.status = "accepted" then
            { res := .error ⟨"already-exists", "Already friends with this user"⟩,
              db := db, tx := [] }
          else if data.status = "pending" then
            { res := .error ⟨"already-exists", "Friend request already pending"⟩,
              db := db, tx := [] }
          else doWrites
        | none => doWrites

/-- Embedding of `acceptFriendRequest` (src/unnamed/part_004 lines 101-255).
All precondition violations return `{success:false, error}` plain objects
from inside the transaction, before any write is buffered.  On success the
Relationship becomes `accepted`, an existing Mirror is updated in place
(role untouched), a missing Mirror is recreated with a role derived from
the accepting user's position against `user1Id`, and the Conversation is
created if absent with `participants = [acceptingUserId, otherUserId]`. -/
def acceptFriendRequest (db : DB) (acceptingUserId friendshipId : String) : OpResult :=
  if friendshipId = "" then
    { res := .error ⟨"invalid-argument", "Friendship ID is required"⟩, db := db, tx := [] }
  else
    let readFr : TxOp := ⟨.get, "friendships", friendshipId⟩
    match db.friendships friendshipId with
    | none =>
      { res := .ok ⟨false, some "Friend request not found"⟩, db := db, tx := [readFr] }
    | some f =>
      if f.user1Id = "" ∨ f.user2Id = "" then
        { res := .ok ⟨false, some "Invalid friendship data"⟩, db := db, tx := [readFr] }
      else if f.status ≠ "pending" then
        { res := .ok ⟨false, some "This request is no longer pending"⟩, db := db, tx := [readFr] }
      else if f.user1Id ≠ acceptingUserId ∧ f.user2Id ≠ acceptingUserId then
        { res := .ok ⟨false, some "You do not have permission to accept this request"⟩,
          db := db, tx := [readFr] }
      else
        let otherUserId := if f.user1Id = acceptingUserId then f.user2Id else f.user1Id
        let chatId := pairKey acceptingUserId otherUserId
        let user1Doc := db.mirrors acceptingUserId otherUserId
        let user2Doc := db.mirrors otherUserId acceptingUserId
        let chatDoc := db.chats chatId
        let reads : List TxOp :=
          [readFr, ⟨.get, "userFriendships", mirrorKey acceptingUserId otherUserId⟩,
           ⟨.get, "userFriendships", mirrorKey otherUserId acceptingUserId⟩,
           ⟨.get, "chats", chatId⟩]
        let db1 := db.setFriendship friendshipId { f with status := "accepted" }
        let w1 : TxOp := ⟨.update, "friendships", friendshipId⟩
        let step2 : DB × TxOp :=
          match user1Doc with
          | some m =>
            (db1.setMirror acceptingUserId otherUserId { m with status := "accepted" },
             ⟨.update, "userFriendships", mirrorKey acceptingUserId otherUserId⟩)
          | none =>
            (db1.setMirror acceptingUserId otherUserId
              { friendshipId := friendshipId, status := "accepted"
                role := if f.user1Id = acceptingUserId then "recipient" else "initiator" },
             ⟨.set, "userFriendships", mirrorKey acceptingUserId otherUserId⟩)
        let step3 : DB × TxOp :=
          match user2Doc with
          | some m =>
            (step2.1.setMirror otherUserId acceptingUserId { m with status := "accepted" },
             ⟨.update, "userFriendships", mirrorKey otherUserId acceptingUserId⟩)
          | none =>
            (step2.1.setMirror otherUserId acceptingUserId
              { friendshipId := friendshipId, status := "accepted"
                role := if f.user2Id = acceptingUserId then "recipient" else "initiator" },
             ⟨.set, "userFriendships", mirrorKey otherUserId acceptingUserId⟩)
        let step4 : DB × List TxOp :=
          match chatDoc with
          | some _ => (step3.1, [])
          | none =>
            (step3.1.setChat chatId
              { participants := [acceptingUserId, otherUserId]
                isActive := none, expirationDays := none },
             [⟨.set, "chats", chatId⟩])
        { res := .ok ⟨true, none⟩, db := step4.1
          tx := reads ++ [w1, step2.2, step3.2] ++ step4.2 }

/-- Embedding of `rejectFriendRequest` (src/unnamed/part_004 lines 392-478).
The typed `HttpsError`s thrown inside the transaction (`not-found`,
`failed-precondition`, `permission-denied`) are caught by the function's
outer catch block, which rethrows `HttpsError('internal', error.message)`:
the caller observes code `internal` with the original message. -/
def rejectFriendRequest (db : DB) (userId friendshipId : String) : OpResult :=
  if friendshipId = "" then
    { res := .error ⟨"invalid-argument", "Friendship ID is required"⟩, db := db, tx := [] }
  else
    let readFr : TxOp := ⟨.get, "friendships", friendshipId⟩
    match db.friendships friendshipId with
    | none =>
      { res := .error ⟨"internal", "Friend request not found"⟩, db := db, tx := [readFr] }
    | some f =>
      if f.status ≠ "pending" then
        { res := .error ⟨"internal", "This request is no longer pending"⟩, db := db, tx := [readFr] }
      else if f.user1Id ≠ userId ∧ f.user2Id ≠ userId then
        { res := .error ⟨"internal", "You do not have permission to reject this request"⟩,
          db := db, tx := [readFr] }
      else
        let otherUserId := if f.user1Id = userId then f.user2Id else f.user1Id
        let db1 := db.delFriendship friendshipId
        let db2 := db1.delMirror userId otherUserId
        let db3 := db2.delMirror otherUserId userId
        { res := .ok ⟨true, none⟩, db := db3
          tx := [readFr, ⟨.delete, "friendships", friendshipId⟩,
                 ⟨.delete, "userFriendships", mirrorKey userId otherUserId⟩,
                 ⟨.delete, "userFriendships", mirrorKey otherUserId userId⟩] }

/-- Embedding of `unfriend` (src/unnamed/part_004 lines 481-587).  As in
`rejectFriendRequest`, the typed errors thrown in the transaction are
rethrown as `internal` by the outer catch.  On success: a
`FriendshipEvent(unfriend)` is recorded, the Relationship and both Mirrors
are deleted, an existing Conversation is marked `isActive := false`, and
after the transaction `archiveUserVideos` is invoked for both parties. -/
def unfriend (db : DB) (userId friendId : String) : OpResult :=
  if friendId = "" then
    { res := .error ⟨"invalid-argument", "Friend ID is required"⟩, db := db, tx := [] }
  else
    let friendshipId := pairKey userId friendId
    let chatId := pairKey userId friendId
    let readFr : TxOp := ⟨.get, "friendships", friendshipId⟩
    match db.friendships friendshipId with
    | none =>
      { res := .error ⟨"internal", "Friendship not found"⟩, db := db, tx := [readFr] }
    | some f =>
      if f.status ≠ "accepted" then
        { res := .error ⟨"internal", "You are not currently friends with this user"⟩,
          db := db, tx := [readFr] }
      else if f.user1Id ≠ userId ∧ f.user2Id ≠ userId then
        { res := .error ⟨"internal", "You do not have permission to unfriend this user"⟩,
          db := db, tx := [readFr] }
      else
        let otherUserId := if f.user1Id = userId then f.user2Id else f.user1Id
        let chatDoc := db.chats chatId
        let db1 := db.addEvent ⟨friendshipId, "unfriend", userId, otherUserId⟩
        let db2 := db1.delFriendship friendshipId
        let db3 := db2.delMirror userId otherUserId
        let db4 := db3.delMirror otherUserId userId
        let step5 : DB × List TxOp :=
          match chatDoc with
          | some c => (db4.setChat chatId { c with isActive := some false },
                       [⟨.update, "chats", chatId⟩])
          | none => (db4, [])
        let archives : List (String × String) :=
          match chatDoc with
          | some _ => [(chatId, userId), (chatId, otherUserId)]
          | none => []
        let dbFinal :=
          match chatDoc with
          | some _ => archiveUserVideos (archiveUserVideos step5.1 chatId userId) chatId otherUserId
          | none => step5.1
        { res := .ok ⟨true, none⟩, db := dbFinal
          tx := [readFr, ⟨.get, "chats", chatId⟩,
                 ⟨.set, "friendshipEvents", "auto"⟩,
                 ⟨.delete, "friendships", friendshipId⟩,
                 ⟨.delete, "userFriendships", mirrorKey userId otherUserId⟩,
                 ⟨.delete, "userFriendships", mirrorKey otherUserId userId⟩] ++ step5.2
          archives := archives }

/-- Embedding of `blockUser` (src/unnamed/part_004 lines 616-722; the copy
in src/functions/friends.js lines 340-446 is identical on these lines).
The Relationship is upserted to `blocked` with `blockedBy` the actor, both
Mirrors are merge-set to `blocked` with roles `blocker`/`blocked`, and then
— after those writes — the transaction issues `transaction.get` on the chat
document; an existing chat is deleted inside the transaction together with
every document of the top-level `messages` collection whose `chatId`
matches.  The `chats/{id}/messages` subcollection is never touched and
`archiveUserVideos` is never invoked. -/
def blockUser (db : DB) (blockingUserId userToBlockId : String) : OpResult :=
  if userToBlockId = "" then
    { res := .error ⟨"invalid-argument", "User ID to block is required"⟩, db := db, tx := [] }
  else
    let friendshipId := pairKey blockingUserId userToBlockId
    let readFr : TxOp := ⟨.get, "friendships", friendshipId⟩
    let step1 : DB × TxOp :=
      match db.friendships friendshipId with
      | some f =>
        (db.setFriendship friendshipId
          { f with status := "blocked", blockedBy := some blockingUserId },
         ⟨.update, "friendships", friendshipId⟩)
      | none =>
        (db.setFriendship friendshipId
          { user1Id := (sortPair blockingUserId userToBlockId).1
            user2Id := (sortPair blockingUserId userToBlockId).2
            status := "blocked"
            initiatorId := none
            blockedBy := some blockingUserId },
         ⟨.set, "friendships", friendshipId⟩)
    let db2 := step1.1.setMirror blockingUserId userToBlockId
      ⟨friendshipId, "blocked", "blocker"⟩
    let db3 := db2.setMirror userToBlockId blockingUserId
      ⟨friendshipId, "blocked", "blocked"⟩
    let chatId := pairKey blockingUserId userToBlockId
    let readChat : TxOp := ⟨.get, "chats", chatId⟩
    let txHead : List TxOp :=
      [readFr, step1.2,
       ⟨.set, "userFriendships", mirrorKey blockingUserId userToBlockId⟩,
       ⟨.set, "userFriendships", mirrorKey userToBlockId blockingUserId⟩,
       readChat]
    match db3.chats chatId with
    | none =>
      { res := .ok ⟨true, none⟩, db := db3, tx := txHead }
    | some _ =>
      let matched := db3.topMessages.filter (fun p => p.2.chatId = chatId)
      let db4 :=
        { db3.delChat chatId with
          topMessages := db3.topMessages.filter (fun p => p.2.chatId ≠ chatId) }
      { res := .ok ⟨true, none⟩, db := db4
        tx := txHead ++ [⟨.delete, "chats", chatId⟩]
              ++ matched.map (fun p => ⟨.delete, "messages", p.1⟩) }

/-- Embedding of `unblockUser` (src/unnamed/part_004 lines 820-903).  All
precondition violations are returned as `{success:false, error}` plain
objects; the blocker path deletes the Relationship and both Mirrors and
records a `FriendshipEvent(unblock)`. -/
def unblockUser (db : DB) (unblockingUserId userToUnblockId : String) : OpResult :=
  if userToUnblockId = "" then
    { res := .error ⟨"invalid-argument", "User ID to unblock is required"⟩, db := db, tx := [] }
  else
    let friendshipId := pairKey unblockingUserId userToUnblockId
    let readFr : TxOp := ⟨.get, "friendships", friendshipId⟩
    match db.friendships friendshipId with
    | none =>
      { res := .ok ⟨false, some "No block record found"⟩, db := db, tx := [readFr] }
    | some f =>
      if f.status ≠ "blocked" then
        { res := .ok ⟨false, some "This user is not blocked"⟩, db := db, tx := [readFr] }
      else if f.blockedBy ≠ some unblockingUserId then
        { res := .ok ⟨false, some "You did not block this user"⟩, db := db, tx := [readFr] }
      else
        let db1 := db.delFriendship friendshipId
        let db2 := db1.delMirror unblockingUserId userToUnblockId
        let db3 := db2.delMirror userToUnblockId unblockingUserId
        let db4 := db3.addEvent ⟨friendshipId, "unblock", unblockingUserId, userToUnblockId⟩
        { res := .ok ⟨true, none⟩, db := db4
          tx := [readFr, ⟨.delete, "friendships", friendshipId⟩,
                 ⟨.delete, "userFriendships", mirrorKey unblockingUserId userToUnblockId⟩,
                 ⟨.delete, "userFriendships", mirrorKey userToUnblockId unblockingUserId⟩,
                 ⟨.set, "friendshipEvents", "auto"⟩] }

/-- `friendshipData.initiatorId || friendshipData.user1Id`: the effective
initiator used by the pending branch of `repairFriendshipState` (an absent
or empty `initiatorId` field falls back to `user1Id`). -/
def Friendship.effInitiator (f : Friendship) : String :=
  match f.initiatorId with
  | some s => if s = "" then f.user1Id else s
  | none => f.user1Id

/-- Embedding of `repairFriendshipState` (src/unnamed/part_004 lines
907-1071).  The Relationship is read outside the transaction and never
written.  For an `accepted` Relationship, missing Mirrors are recreated
(role derived from the caller's position against `user1Id`/`user2Id`),
Mirrors with a different status are updated to `accepted`, and a missing
Conversation is recreated.  For a `pending` Relationship only missing
initiator/recipient Mirrors are created.  Any other status — including
`blocked` — triggers no repair. -/
def repairFriendshipState (db : DB) (userId friendId : String) : OpResult :=
  if friendId = "" then
    { res := .error ⟨"invalid-argument", "Friend ID is required"⟩, db := db, tx := [] }
  else
    let friendshipId := pairKey userId friendId
    match db.friendships friendshipId with
    | none =>
      { res := .ok ⟨false, some "No friendship found"⟩, db := db, tx := [] }
    | some f =>
      let chatId := pairKey userId friendId
      let user1Doc := db.mirrors userId friendId
      let user2Doc := db.mirrors friendId userId
      let chatDoc := db.chats chatId
      let reads : List TxOp :=
        [⟨.get, "userFriendships", mirrorKey userId friendId⟩,
         ⟨.get, "userFriendships", mirrorKey friendId userId⟩,
         ⟨.get, "chats", chatId⟩]
      if f.status = "accepted" then
        let step1 : DB × List TxOp :=
          match user1Doc with
          | none =>
            (db.setMirror userId friendId
              { friendshipId := friendshipId, status := "accepted"
                role := if f.user1Id = userId then "recipient" else "initiator" },
             [⟨.set, "userFriendships", mirrorKey userId friendId⟩])
          | some m =>
            if m.status ≠ "accepted" then
              (db.setMirror userId friendId { m with status := "accepted" },
               [⟨.update, "userFriendships", mirrorKey userId friendId⟩])
            else (db, [])
        let step2 : DB × List TxOp :=
          match user2Doc with
          | none =>
            (step1.1.setMirror friendId userId
              { friendshipId := friendshipId, status := "accepted"
                role := if f.user2Id = friendId then "recipient" else "initiator" },
             [⟨.set, "userFriendships", mirrorKey friendId userId⟩])
          | some m =>
            if m.status ≠ "accepted" then
              (step1.1.setMirror friendId userId { m with status := "accepted" },
               [⟨.update, "userFriendships", mirrorKey friendId userId⟩])
            else (step1.1, [])
        let step3 : DB × List TxOp :=
          match chatDoc with
          | none =>
            (step2.1.setChat chatId
              { participants := [userId, friendId], isActive := none, expirationDays := none },
             [⟨.set, "chats", chatId⟩])
          | some _ => (step2.1, [])
        { res := .ok ⟨true, none⟩, db := step3.1
          tx := reads ++ step1.2 ++ step2.2 ++ step3.2 }
      else if f.status = "pending" then
        let initiatorId := f.effInitiator
        let recipientId := if initiatorId = userId then friendId else userId
        let initiatorDoc := if initiatorId = userId then user1Doc else user2Doc
        let step1 : DB × List TxOp :=
          match initiatorDoc with
          | none =>
            (db.setMirror initiatorId recipientId
              ⟨friendshipId, "pending", "initiator"⟩,
             [⟨.set, "userFriendships", mirrorKey initiatorId recipientId⟩])
          | some _ => (db, [])
        let recipientDoc := if recipientId = userId then user1Doc else user2Doc
        let step2 : DB × List TxOp :=
          match recipientDoc with
          | none =>
            (step1.1.setMirror recipientId initiatorId
              ⟨friendshipId, "pending", "recipient"⟩,
             [⟨.set, "userFriendships", mirrorKey recipientId initiatorId⟩])
          | some _ => (step1.1, [])
        { res := .ok ⟨true, none⟩, db := step2.1, tx := reads ++ step1.2 ++ step2.2 }
      else
        { res := .ok ⟨true, none⟩, db := db, tx := reads }

/-- The Mirror owned by `owner` for `other` exists and carries `status`. -/
def mirrorStatusIs (db : DB) (owner other status : String) : Bool :=
  match db.mirrors owner other with
  | some m => m.status = status
  | none => false

/-- A `chats/{k}` document exists. -/
def chatExists (db : DB) (k : String) : Bool :=
  (db.chats k).isSome

/-- The call was rejected with a thrown `permission-denied` `HttpsError`. -/
def isPermissionDeniedError : CallResult → Bool
  | .error e => e.code = "permission-denied"
  | .ok _ => false

/-! ### Order lemmas for the pair key -/

theorem charListLe_total (l1 l2 : List Char) :
    charListLe l1 l2 = true ∨ charListLe l2 l1 = true := by
  induction l1 generalizing l2 with
  | nil => left; rfl
  | cons c cs ih =>
    cases l2 with
    | nil => right; rfl
    | cons d ds =>
      by_cases h1 : c.toNat < d.toNat
      · left; simp [charListLe, h1]
      · by_cases h2 : d.toNat < c.toNat
        · right; simp [charListLe, h1, h2]
        · rcases ih ds with h | h
          · left; simp [charListLe, h1, h2, h]
          · right; simp [charListLe, h1, h2, h]

theorem charListLe_antisymm (l1 l2 : List Char)
    (h1 : charListLe l1 l2 = true) (h2 : charListLe l2 l1 = true) : l1 = l2 := by
  induction l1 generalizing l2 with
  | nil =>
    cases l2 with
    | nil => rfl
    | cons d ds => simp [charListLe] at h2
  | cons c cs ih =>
    cases l2 with
    | nil => simp [charListLe] at h1
    | cons d ds =>
      by_cases hcd : c.toNat < d.toNat
      · simp [charListLe, hcd, Nat.lt_asymm hcd] at h2
      · by_cases hdc : d.toNat < c.toNat
        · simp [charListLe, hcd, hdc] at h1
        · have heq : c = d := by
            have hn : c.toNat = d.toNat :=
              Nat.le_antisymm (Nat.le_of_not_lt hdc) (Nat.le_of_not_lt hcd)
            exact Char.eq_of_val_eq (UInt32.eq_of_val_eq (Fin.eq_of_val_eq hn))
          subst heq
          simp [charListLe, hcd] at h1 h2
          rw [ih ds h1 h2]

theorem strLe_antisymm (a b : String)
    (h1 : strLe a b = true) (h2 : strLe b a = true) : a = b :=
  congrArg String.mk (charListLe_antisymm _ _ h1 h2)

theorem sortPair_comm (a b : String) : sortPair a b = sortPair b a := by
  by_cases hab : a = b
  · subst hab; rfl
  · unfold sortPair
    cases h1 : strLe a b <;> cases h2 : strLe b a <;> simp
    · rcases charListLe_total a.data b.data with h | h
      · exact absurd h (by simpa [strLe] using h1)
      · exact absurd h (by simpa [strLe] using h2)
    · exact absurd (strLe_antisymm a b h1 h2) hab

theorem pairKey_comm (a b : String) : pairKey a b = pairKey b a := by
  unfold pairKey
  rw [sortPair_comm]

theorem pairKey_ne_empty (a b : String) : pairKey a b ≠ "" := by
  unfold pairKey
  intro h
  have hl := congrArg String.length h
  simp [String.length_append] at hl
  exact absurd hl.1.2 (by decide)

theorem sortPair_cases (a b : String) :
    sortPair a b = (a, b) ∨ sortPair a b = (b, a) := by
  unfold sortPair
  split
  · exact Or.inl rfl
  · exact Or.inr rfl

/-! ### Helper lemmas about the Reconciler and the transition operations -/

theorem mirrorStatusIs_eq (db : DB) (a b s : String) :
    mirrorStatusIs db a b s = true ↔ ∃ m, db.mirrors a b = some m ∧ m.status = s := by
  unfold mirrorStatusIs
  cases h : db.mirrors a b <;> simp

theorem chatExists_eq (db : DB) (k : String) :
    chatExists db k = true ↔ ∃ c, db.chats k = some c := by
  unfold chatExists
  cases h : db.chats k <;> simp

theorem repair_preserves_friendships (db : DB) (userId friendId : String) :
    (repairFriendshipState db userId friendId).db.friendships = db.friendships := by
  simp only [repairFriendshipState]
  repeat' split
  all_goals simp [DB.setMirror, DB.setChat]

set_option maxRecDepth 8192 in
theorem repair_accepted_heals (db : DB) (userId friendId : String) (f : Friendship)
    (hF : friendId ≠ "")
    (hRel : db.friendships (pairKey userId friendId) = some f)
    (hStatus : f.status = "accepted") :
    mirrorStatusIs (repairFriendshipState db userId friendId).db userId friendId "accepted" = true ∧
    mirrorStatusIs (repairFriendshipState db userId friendId).db friendId userId "accepted" = true ∧
    chatExists (repairFriendshipState db userId friendId).db (pairKey userId friendId) = true := by
  by_cases huv : userId = friendId
  · subst huv
    simp only [repairFriendshipState, if_neg hF, hRel, hStatus, reduceIte]
    repeat' split
    all_goals simp_all [mirrorStatusIs, chatExists, DB.setMirror, DB.setChat]
  · have hvu : friendId ≠ userId := Ne.symm huv
    simp only [repairFriendshipState, if_neg hF, hRel, hStatus, reduceIte]
    repeat' split
    all_goals simp_all [mirrorStatusIs, chatExists, DB.setMirror, DB.setChat, huv, hvu]

set_option maxRecDepth 8192 in
theorem repair_pending_heals (db : DB) (userId friendId : String) (f : Friendship)
    (hF : friendId ≠ "")
    (hRel : db.friendships (pairKey userId friendId) = some f)
    (hStatus : f.status = "pending")
    (hInit : f.effInitiator = userId ∨ f.effInitiator = friendId) :
    ((repairFriendshipState db userId friendId).db.mirrors userId friendId).isSome = true ∧
    ((repairFriendshipState db userId friendId).db.mirrors friendId userId).isSome = true := by
  by_cases huv : userId = friendId
  · subst huv
    have hIU : f.effInitiator = userId := hInit.elim id id
    simp only [repairFriendshipState, if_neg hF, hRel, hStatus, hIU, reduceIte]
    repeat' split
    all_goals simp_all [DB.setMirror]
  · have hvu : friendId ≠ userId := Ne.symm huv
    rcases hInit with hIU | hIV
    · simp only [repairFriendshipState, if_neg hF, hRel, hStatus, hIU, reduceIte]
      repeat' split
      all_goals simp_all [DB.setMirror, huv, hvu]
    · simp only [repairFriendshipState, if_neg hF, hRel, hStatus, hIV, if_neg hvu, reduceIte]
      repeat' split
      all_goals simp_all [DB.setMirror, huv, hvu]

set_option maxRecDepth 8192 in
theorem send_establishes_mirrors (db : DB) :
    ∀ senderId email u, findUserByEmail db (jsTrim (jsToLower email)) = some u →
      (sendFriendRequest db senderId email).res = .ok ⟨true, none⟩ →
      (sendFriendRequest db senderId email).db.friendships (pairKey senderId u.uid) =
        some ⟨(sortPair senderId u.uid).1, (sortPair senderId u.uid).2, "pending",
          some senderId, none⟩ ∧
      (sendFriendRequest db senderId email).db.mirrors senderId u.uid =
        some ⟨pairKey senderId u.uid, "pending", "initiator"⟩ ∧
      (sendFriendRequest db senderId email).db.mirrors u.uid senderId =
        some ⟨pairKey senderId u.uid, "pending", "recipient"⟩ := by
  intro senderId email u hU hres
  by_cases he : email = ""
  · simp [sendFriendRequest, he] at hres
  by_cases hself : u.uid = senderId
  · simp [sendFriendRequest, if_neg he, hU, hself] at hres
  simp only [sendFriendRequest, if_neg he, hU, if_neg hself] at hres ⊢
  cases hfr : db.friendships (pairKey senderId u.uid) with
  | none =>
    simp only [hfr] at hres ⊢
    simp [DB.setFriendship, DB.setMirror, hself]
  | some f =>
    simp only [hfr] at hres ⊢
    by_cases hb : f.status = "blocked"
    · simp [hb] at hres
    by_cases ha : f.status = "accepted"
    · simp [hb, ha] at hres
    by_cases hp : f.status = "pending"
    · simp [hb, ha, hp] at hres
    simp only [hb, ha, hp, if_false, reduceIte] at hres ⊢
    simp [DB.setFriendship, DB.setMirror, hself]

set_option maxRecDepth 8192 in
theorem accept_establishes_mirrors (db : DB) :
    ∀ uid fid f, db.friendships fid = some f →
      (acceptFriendRequest db uid fid).res = .ok ⟨true, none⟩ →
      (acceptFriendRequest db uid fid).db.friendships fid =
        some { f with status := "accepted" } ∧
      mirrorStatusIs (acceptFriendRequest db uid fid).db uid
        (if f.user1Id = uid then f.user2Id else f.user1Id) "accepted" = true ∧
      mirrorStatusIs (acceptFriendRequest db uid fid).db
        (if f.user1Id = uid then f.user2Id else f.user1Id) uid "accepted" = true := by
  intro uid fid f hRel hres
  by_cases hfid : fid = ""
  · simp [acceptFriendRequest, hfid] at hres
  by_cases h12 : f.user1Id = "" ∨ f.user2Id = ""
  · simp [acceptFriendRequest, if_neg hfid, hRel, h12] at hres
  by_cases hst : f.status = "pending"
  case neg => simp [acceptFriendRequest, if_neg hfid, hRel, h12, hst] at hres
  by_cases hpar : f.user1Id ≠ uid ∧ f.user2Id ≠ uid
  · simp [acceptFriendRequest, if_neg hfid, hRel, h12, hst, hpar] at hres
  clear hres
  by_cases hu1 : f.user1Id = uid
  · simp only [acceptFriendRequest, if_neg hfid, hRel, h12, hst, hpar, hu1,
      if_true, if_false, reduceIte]
    cases hm1 : db.mirrors uid f.user2Id <;> simp only [hm1] <;>
      cases hm2 : db.mirrors f.user2Id uid <;> simp only [hm2] <;>
      cases hch : db.chats (pairKey uid f.user2Id) <;> simp only [hch] <;>
      by_cases huo : uid = f.user2Id <;>
      simp_all [mirrorStatusIs, DB.setFriendship, DB.setMirror, DB.setChat]
  · have hu2 : f.user2Id = uid := by
      rcases not_and_or.mp hpar with h | h
      · exact absurd (not_not.mp h) hu1
      · exact not_not.mp h
    simp only [acceptFriendRequest, if_neg hfid, hRel, h12, hst, hpar, hu2,
      if_neg hu1, if_true, if_false, reduceIte]
    cases hm1 : db.mirrors uid f.user1Id <;> simp only [hm1] <;>
      cases hm2 : db.mirrors f.user1Id uid <;> simp only [hm2] <;>
      cases hch : db.chats (pairKey uid f.user1Id) <;> simp only [hch] <;>
      by_cases huo : uid = f.user1Id <;>
      simp_all [mirrorStatusIs, DB.setFriendship, DB.setMirror, DB.setChat]

set_option maxRecDepth 8192 in
theorem block_establishes_mirrors (db : DB) : ∀ uid target,
      (blockUser db uid target).res = .ok ⟨true, none⟩ →
      (∃ f, (blockUser db uid target).db.friendships (pairKey uid target) = some f ∧
        f.status = "blocked" ∧ f.blockedBy = some uid) ∧
      mirrorStatusIs (blockUser db uid target).db uid target "blocked" = true ∧
      mirrorStatusIs (blockUser db uid target).db target uid "blocked" = true := by
  intro uid target hres
  by_cases ht : target = ""
  · simp [blockUser, ht] at hres
  clear hres
  simp only [blockUser, if_neg ht]
  cases hfr : db.friendships (pairKey uid target) <;>
    simp only [hfr, DB.setFriendship, DB.setMirror] <;>
    cases hch : db.chats (pairKey uid target) <;>
    simp only [hch] <;>
    by_cases hut : uid = target <;>
    simp_all [mirrorStatusIs, DB.setFriendship, DB.setMirror, DB.delChat]

theorem reject_deletes_relationship (db : DB) : ∀ uid fid,
    (rejectFriendRequest db uid fid).res = .ok ⟨true, none⟩ →
    (rejectFriendRequest db uid fid).db.friendships fid = none := by
  intro uid fid hres
  by_cases hfid : fid = ""
  · simp [rejectFriendRequest, hfid] at hres
  simp only [rejectFriendRequest, if_neg hfid] at hres ⊢
  cases hfr : db.friendships fid with
  | none => simp [hfr] at hres
  | some f =>
    simp only [hfr] at hres ⊢
    by_cases hst : f.status = "pending"
    case neg => simp [hst] at hres
    by_cases hpar : f.user1Id ≠ uid ∧ f.user2Id ≠ uid
    · simp [hst, hpar] at hres
    · simp [hst, hpar, DB.delFriendship, DB.delMirror]

theorem unfriend_deletes_relationship (db : DB) : ∀ uid fr,
    (unfriend db uid fr).res = .ok ⟨true, none⟩ →
    (unfriend db uid fr).db.friendships (pairKey uid fr) = none := by
  intro uid fr hres
  by_cases hfr0 : fr = ""
  · simp [unfriend, hfr0] at hres
  simp only [unfriend, if_neg hfr0] at hres ⊢
  cases hfr : db.friendships (pairKey uid fr) with
  | none => simp [hfr] at hres
  | some f =>
    simp only [hfr] at hres ⊢
    by_cases hst : f.status = "accepted"
    case neg => simp [hst] at hres
    by_cases hpar : f.user1Id ≠ uid ∧ f.user2Id ≠ uid
    · simp [hst, hpar] at hres
    · cases hch : db.chats (pairKey uid fr) <;>
        simp [hst, hpar, hch, DB.delFriendship, DB.delMirror, DB.addEvent,
          DB.setChat, archiveUserVideos]

theorem unblock_deletes_relationship (db : DB) : ∀ uid t,
    (unblockUser db uid t).res = .ok ⟨true, none⟩ →
    (unblockUser db uid t).db.friendships (pairKey uid t) = none := by
  intro uid t hres
  by_cases ht : t = ""
  · simp [unblockUser, ht] at hres
  simp only [unblockUser, if_neg ht] at hres ⊢
  cases hfr : db.friendships (pairKey uid t) with
  | none => simp [hfr] at hres
  | some f =>
    simp only [hfr] at hres ⊢
    by_cases hst : f.status = "blocked"
    case neg => simp [hst] at hres
    by_cases hbb : f.blockedBy = some uid
    · simp [hst, hbb, DB.delFriendship, DB.delMirror, DB.addEvent]
    · simp [hst, hbb] at hres

/-! ### Concrete stores used by witnesses and counterexamples -/

/-- An empty document store. -/
def emptyDB : DB :=
  { friendships := fun _ => none
    mirrors := fun _ _ => none
    chats := fun _ => none
    chatMessages := fun _ => []
    topMessages := []
    events := []
    users := [] }

/-- A store with one registered user `bob`. -/
def usersDB : DB := { emptyDB with users := [⟨"bob", "bob@x.com"⟩] }

/-- A blocked Relationship between `a` and `b` (blocked by `a`) whose Mirror
records are missing — a drift state the Reconciler is meant to heal. -/
def blockedDB : DB :=
  { emptyDB with friendships := fun k =>
      (if k = "a_b" then some ⟨"a", "b", "blocked", none, some "a"⟩ else none) }

/-- `blockedDB` plus the registered user `b`, so `sendFriendRequest` can
resolve the target by email. -/
def blockedUsersDB : DB := { blockedDB with users := [⟨"b", "b@x.com"⟩] }

/-- An accepted Relationship between `a` and `b` with both Mirrors missing. -/
def acceptedDriftDB : DB :=
  { emptyDB with friendships := fun k =>
      (if k = "a_b" then some ⟨"a", "b", "accepted", none, none⟩ else none) }

/-- A pending Relationship between `a` and `b` (initiator `a`) with both
Mirrors missing. -/
def pendingDB : DB :=
  { emptyDB with friendships := fun k =>
      (if k = "a_b" then some ⟨"a", "b", "pending", some "a", none⟩ else none) }

/-- A pending Relationship whose stored `initiatorId` (`z`) is not one of the
two parties: representable in the store, though not produced by the API. -/
def pendingCorruptDB : DB :=
  { emptyDB with friendships := fun k =>
      (if k = "a_b" then some ⟨"a", "b", "pending", some "z", none⟩ else none) }

/-- An accepted pair `a`,`b` with a Conversation holding one message from `a`
in its `messages` subtree, plus two documents in the top-level `messages`
collection (one for this chat, one for another). -/
def chatDB : DB :=
  { emptyDB with
    friendships := fun k =>
      (if k = "a_b" then some ⟨"a", "b", "accepted", some "a", none⟩ else none)
    chats := fun k =>
      (if k = "a_b" then some ⟨["a", "b"], none, none⟩ else none)
    chatMessages := fun c =>
      (if c = "a_b" then [("m1", ⟨"a", some false, false, none⟩)] else [])
    topMessages := [("t1", ⟨"a_b"⟩), ("t2", ⟨"other"⟩)] }

/-! ### Claim C1 -/

/-- C1, amended.  After every completed transition the pair's Relationship and
Mirrors satisfy: `sendFriendRequest` writes the Relationship (pending,
initiator = sender) and both Mirrors with initiator/recipient roles;
`acceptFriendRequest` leaves the Relationship accepted and both Mirrors
present with status accepted (roles are not re-derived from the initiator);
`blockUser` leaves the Relationship blocked with `blockedBy` the actor and
both Mirrors present with status blocked (roles blocker/blocked); after
`rejectFriendRequest`, `unfriend` and `unblockUser` the Relationship is
absent, so the Mirror invariant is vacuous.  After the Reconciler runs, both
Mirrors present with matching status is guaranteed only when the
Relationship's status is `accepted`; pending repair only creates missing
Mirrors, and blocked Relationships are not repaired at all. -/
theorem C1_mirror_invariant_amended (db : DB) :
    (∀ senderId email u, findUserByEmail db (jsTrim (jsToLower email)) = some u →
      (sendFriendRequest db senderId email).res = .ok ⟨true, none⟩ →
      (sendFriendRequest db senderId email).db.friendships (pairKey senderId u.uid) =
        some ⟨(sortPair senderId u.uid).1, (sortPair senderId u.uid).2, "pending",
          some senderId, none⟩ ∧
      (sendFriendRequest db senderId email).db.mirrors senderId u.uid =
        some ⟨pairKey senderId u.uid, "pending", "initiator"⟩ ∧
      (sendFriendRequest db senderId email).db.mirrors u.uid senderId =
        some ⟨pairKey senderId u.uid, "pending", "recipient"⟩) ∧
    (∀ uid fid f, db.friendships fid = some f →
      (acceptFriendRequest db uid fid).res = .ok ⟨true, none⟩ →
      (acceptFriendRequest db uid fid).db.friendships fid =
        some { f with status := "accepted" } ∧
      mirrorStatusIs (acceptFriendRequest db uid fid).db uid
        (if f.user1Id = uid then f.user2Id else f.user1Id) "accepted" = true ∧
      mirrorStatusIs (acceptFriendRequest db uid fid).db
        (if f.user1Id = uid then f.user2Id else f.user1Id) uid "accepted" = true) ∧
    (∀ uid target, (blockUser db uid target).res = .ok ⟨true, none⟩ →
      (∃ f, (blockUser db uid target).db.friendships (pairKey uid target) = some f ∧
        f.status = "blocked" ∧ f.blockedBy = some uid) ∧
      mirrorStatusIs (blockUser db uid target).db uid target "blocked" = true ∧
      mirrorStatusIs (blockUser db uid target).db target uid "blocked" = true) ∧
    (∀ uid fid, (rejectFriendRequest db uid fid).res = .ok ⟨true, none⟩ →
      (rejectFriendRequest db uid fid).db.friendships fid = none) ∧
    (∀ uid fr, (unfriend db uid fr).res = .ok ⟨true, none⟩ →
      (unfriend db uid fr).db.friendships (pairKey uid fr) = none) ∧
    (∀ uid t, (unblockUser db uid t).res = .ok ⟨true, none⟩ →
      (unblockUser db uid t).db.friendships (pairKey uid t) = none) ∧
    (∀ uid fr f, fr ≠ "" → db.friendships (pairKey uid fr) = some f →
      f.status = "accepted" →
      mirrorStatusIs (repairFriendshipState db uid fr).db uid fr "accepted" = true ∧
      mirrorStatusIs (repairFriendshipState db uid fr).db fr uid "accepted" = true ∧
      chatExists (repairFriendshipState db uid fr).db (pairKey uid fr) = true) :=
  ⟨send_establishes_mirrors db, accept_establishes_mirrors db,
   block_establishes_mirrors db, reject_deletes_relationship db,
   unfriend_deletes_relationship db, unblock_deletes_relationship db,
   fun uid fr f h0 h1 h2 => repair_accepted_heals db uid fr f h0 h1 h2⟩

/-- C1 counterexample.  The claim as stated fails: on a blocked Relationship
between `a` and `b` whose Mirrors are missing, `repairFriendshipState`
completes successfully, the Relationship still has status `blocked`, and both
Mirror records are still absent after the Reconciler ran. -/
theorem C1_mirror_invariant_counterexample :
    (repairFriendshipState blockedDB "a" "b").res = .ok ⟨true, none⟩ ∧
    (repairFriendshipState blockedDB "a" "b").db.friendships "a_b" =
      some ⟨"a", "b", "blocked", none, some "a"⟩ ∧
    (repairFriendshipState blockedDB "a" "b").db.mirrors "a" "b" = none ∧
    (repairFriendshipState blockedDB "a" "b").db.mirrors "b" "a" = none := by
  decide

/-- C1 witness: the amended invariant theorem evaluated on concrete stores,
one consequence per transition. -/
theorem C1_mirror_invariant_witness :
    (sendFriendRequest usersDB "alice" "bob@x.com").db.mirrors "alice" "bob" =
      some ⟨pairKey "alice" "bob", "pending", "initiator"⟩ ∧
    (acceptFriendRequest pendingDB "b" "a_b").db.friendships "a_b" =
      some ⟨"a", "b", "accepted", some "a", none⟩ ∧
    mirrorStatusIs (blockUser emptyDB "a" "b").db "a" "b" "blocked" = true ∧
    (rejectFriendRequest pendingDB "a" "a_b").db.friendships "a_b" = none ∧
    (unfriend acceptedDriftDB "a" "b").db.friendships (pairKey "a" "b") = none ∧
    (unblockUser blockedDB "a" "b").db.friendships (pairKey "a" "b") = none ∧
    mirrorStatusIs (repairFriendshipState acceptedDriftDB "a" "b").db "a" "b" "accepted" = true := by
  refine ⟨?_, ?_, ?_, ?_, ?_, ?_, ?_⟩
  · exact ((C1_mirror_invariant_amended usersDB).1 "alice" "bob@x.com"
      ⟨"bob", "bob@x.com"⟩ (by decide) (by decide)).2.1
  · exact ((C1_mirror_invariant_amended pendingDB).2.1 "b" "a_b"
      ⟨"a", "b", "pending", some "a", none⟩ (by decide) (by decide)).1
  · exact ((C1_mirror_invariant_amended emptyDB).2.2.1 "a" "b" (by decide)).2.1
  · exact (C1_mirror_invariant_amended pendingDB).2.2.2.1 "a" "a_b" (by decide)
  · exact (C1_mirror_invariant_amended acceptedDriftDB).2.2.2.2.1 "a" "b" (by decide)
  · exact (C1_mirror_invariant_amended blockedDB).2.2.2.2.2.1 "a" "b" (by decide)
  · exact ((C1_mirror_invariant_amended acceptedDriftDB).2.2.2.2.2.2 "a" "b"
      ⟨"a", "b", "accepted", none, none⟩ (by decide) (by decide) (by decide)).1

/-! ### Claim C2 -/

/-- C2.  Within the single transaction of each action, `acceptFriendRequest`,
`rejectFriendRequest`, `unfriend` and `unblockUser` issue every
`transaction.get` before any `transaction.set`/`update`/`delete` — but
`blockUser` always issues its `transaction.get` of the chat document after
the Relationship and Mirror writes, violating the reads-before-writes
transaction contract on every run that reaches the transaction. -/
theorem C2_reads_before_writes (db : DB) (actorId otherArg : String) :
    noReadAfterWrite (acceptFriendRequest db actorId otherArg).tx = true ∧
    noReadAfterWrite (rejectFriendRequest db actorId otherArg).tx = true ∧
    noReadAfterWrite (unfriend db actorId otherArg).tx = true ∧
    noReadAfterWrite (unblockUser db actorId otherArg).tx = true ∧
    (otherArg ≠ "" → noReadAfterWrite (blockUser db actorId otherArg).tx = false) := by
  refine ⟨?_, ?_, ?_, ?_, ?_⟩
  · simp only [acceptFriendRequest]
    repeat' split
    all_goals simp [noReadAfterWrite, noReadAfterWriteAux]
  · simp only [rejectFriendRequest]
    repeat' split
    all_goals simp [noReadAfterWrite, noReadAfterWriteAux]
  · simp only [unfriend]
    repeat' split
    all_goals simp [noReadAfterWrite, noReadAfterWriteAux]
  · simp only [unblockUser]
    repeat' split
    all_goals simp [noReadAfterWrite, noReadAfterWriteAux]
  · intro ht
    simp only [blockUser, if_neg ht]
    repeat' split
    all_goals simp [noReadAfterWrite, noReadAfterWriteAux]

/-- C2 witness: the read-after-write trace of `blockUser` on a concrete
input. -/
theorem C2_reads_before_writes_witness :
    noReadAfterWrite (blockUser emptyDB "alice" "bob").tx = false :=
  (C2_reads_before_writes emptyDB "alice" "bob").2.2.2.2 (by decide)

/-! ### Claim C3 -/

/-- C3.  Evaluations at failing inputs: in `rejectFriendRequest` and
`unfriend` the typed rejections (`not-found`, `failed-precondition`,
`permission-denied`) thrown inside the transaction are re-thrown by the
outer catch block as `HttpsError('internal', message)`, so the caller sees
code `internal`; `acceptFriendRequest` and `unblockUser` return untyped
`{success:false}` objects instead of typed rejection codes. -/
theorem C3_rejections_surfaced_as_internal :
    (rejectFriendRequest emptyDB "alice" "missing").res =
      .error ⟨"internal", "Friend request not found"⟩ ∧
    (rejectFriendRequest blockedDB "a" "a_b").res =
      .error ⟨"internal", "This request is no longer pending"⟩ ∧
    (rejectFriendRequest pendingDB "z" "a_b").res =
      .error ⟨"internal", "You do not have permission to reject this request"⟩ ∧
    (unfriend emptyDB "alice" "bob").res =
      .error ⟨"internal", "Friendship not found"⟩ ∧
    (acceptFriendRequest emptyDB "alice" "missing").res =
      .ok ⟨false, some "Friend request not found"⟩ ∧
    (unblockUser emptyDB "alice" "bob").res =
      .ok ⟨false, some "No block record found"⟩ := by
  decide

/-! ### Claim C4 -/

/-- C4, amended.  When `blockUser` runs against a pair with an existing
Conversation, the Conversation record is deleted and the matching documents
of the top-level `messages` collection are deleted inside the core
transaction; the Conversation's own `messages` subtree is left untouched and
the Archiver is never invoked. -/
theorem C4_block_conversation_amended (db : DB) (actor target : String) (c : Chat)
    (hTarget : target ≠ "")
    (hChat : db.chats (pairKey actor target) = some c) :
    (blockUser db actor target).res = .ok ⟨true, none⟩ ∧
    (blockUser db actor target).db.chats (pairKey actor target) = none ∧
    (blockUser db actor target).db.chatMessages = db.chatMessages ∧
    (blockUser db actor target).archives = [] ∧
    (blockUser db actor target).db.topMessages =
      db.topMessages.filter (fun p => p.2.chatId ≠ pairKey actor target) ∧
    (db.topMessages.filter (fun p => p.2.chatId = pairKey actor target)).map
        (fun p => TxOp.mk .delete "messages" p.1) ⊆ (blockUser db actor target).tx := by
  simp only [blockUser, if_neg hTarget]
  cases hF : db.friendships (pairKey actor target) <;>
    simp only [DB.setFriendship, DB.setMirror, hChat] <;>
    refine ⟨?_, ?_, ?_, ?_, ?_, ?_⟩ <;>
    first
      | rfl
      | trivial
      | (intro x hx; simp [List.mem_cons, hx])
      | (simp [DB.delChat])

/-- C4 counterexample.  The claim as stated fails on a concrete store: after
`blockUser` the chat's message subtree still holds its message, the Archiver
was never scheduled, and the top-level messages deletion happened inside the
transaction (a `transaction.delete` on the messages collection is in the
trace). -/
theorem C4_block_conversation_counterexample :
    (blockUser chatDB "a" "b").db.chats "a_b" = none ∧
    (blockUser chatDB "a" "b").db.chatMessages "a_b" =
      [("m1", ⟨"a", some false, false, none⟩)] ∧
    (blockUser chatDB "a" "b").archives = [] ∧
    (TxOp.mk .delete "messages" "t1") ∈ (blockUser chatDB "a" "b").tx := by
  decide

/-- C4 witness: the amended theorem applied to the concrete store. -/
theorem C4_block_conversation_witness :
    (blockUser chatDB "a" "b").db.chats (pairKey "a" "b") = none ∧
    (blockUser chatDB "a" "b").archives = [] := by
  have h := C4_block_conversation_amended chatDB "a" "b" ⟨["a", "b"], none, none⟩
    (by decide) (by decide)
  exact ⟨h.2.1, h.2.2.2.1⟩

/-! ### Claim C5 -/

/-- C5.  For two distinct users A and B with no prior Relationship (and hence
no Conversation): `sendFriendRequest(A → B)` then `acceptFriendRequest` by B
succeed, the Relationship is accepted and a Conversation exists with
participants {A, B}; a subsequent `unfriend` by A succeeds, the Relationship
and both Mirrors are absent, the Conversation still exists with
`isActive = false`, a `FriendshipEvent(unfriend)` is recorded, and archival
of both parties' content in that Conversation has been scheduled. -/
theorem C5_round_trip (db : DB) (A B email : String) (u : UserDoc)
    (hA : A ≠ "") (hB : B ≠ "") (hAB : A ≠ B) (hEmail : email ≠ "")
    (hU : findUserByEmail db (jsTrim (jsToLower email)) = some u)
    (hUid : u.uid = B)
    (hNoRel : db.friendships (pairKey A B) = none)
    (hNoChat : db.chats (pairKey A B) = none) :
    (sendFriendRequest db A email).res = .ok ⟨true, none⟩ ∧
    (acceptFriendRequest (sendFriendRequest db A email).db B (pairKey A B)).res =
      .ok ⟨true, none⟩ ∧
    (∃ f, (acceptFriendRequest (sendFriendRequest db A email).db B
        (pairKey A B)).db.friendships (pairKey A B) = some f ∧ f.status = "accepted") ∧
    (∃ c, (acceptFriendRequest (sendFriendRequest db A email).db B
        (pairKey A B)).db.chats (pairKey A B) = some c ∧
      A ∈ c.participants ∧ B ∈ c.participants ∧ c.participants.length = 2) ∧
    (unfriend (acceptFriendRequest (sendFriendRequest db A email).db B
        (pairKey A B)).db A B).res = .ok ⟨true, none⟩ ∧
    (unfriend (acceptFriendRequest (sendFriendRequest db A email).db B
        (pairKey A B)).db A B).db.friendships (pairKey A B) = none ∧
    (unfriend (acceptFriendRequest (sendFriendRequest db A email).db B
        (pairKey A B)).db A B).db.mirrors A B = none ∧
    (unfriend (acceptFriendRequest (sendFriendRequest db A email).db B
        (pairKey A B)).db A B).db.mirrors B A = none ∧
    (∃ c, (unfriend (acceptFriendRequest (sendFriendRequest db A email).db B
        (pairKey A B)).db A B).db.chats (pairKey A B) = some c ∧
      c.isActive = some false) ∧
    (⟨pairKey A B, "unfriend", A, B⟩ : FriendshipEvent) ∈
      (unfriend (acceptFriendRequest (sendFriendRequest db A email).db B
        (pairKey A B)).db A B).db.events ∧
    (unfriend (acceptFriendRequest (sendFriendRequest db A email).db B
        (pairKey A B)).db A B).archives = [(pairKey A B, A), (pairKey A B, B)] := by
  have hBA : B ≠ A := Ne.symm hAB
  have hk := pairKey_ne_empty A B
  have hkc : pairKey B A = pairKey A B := pairKey_comm B A
  have hr1 : sendFriendRequest db A email =
      { res := .ok ⟨true, none⟩
        db := ((db.setFriendship (pairKey A B)
          { user1Id := (sortPair A B).1, user2Id := (sortPair A B).2
            status := "pending", initiatorId := some A, blockedBy := none }).setMirror
            A B ⟨pairKey A B, "pending", "initiator"⟩).setMirror
            B A ⟨pairKey A B, "pending", "recipient"⟩
        tx := [] } := by
    simp only [sendFriendRequest, if_neg hEmail, hU, hUid, if_neg hBA, hNoRel]
  rw [hr1]
  rcases sortPair_cases A B with hs | hs <;>
    simp [acceptFriendRequest, unfriend, DB.setFriendship, DB.setMirror,
      DB.setChat, DB.delFriendship, DB.delMirror, DB.addEvent, archiveUserVideos,
      hs, hkc, hk, hA, hB, hAB, hBA, hNoChat]

/-- C5 witness: the round trip run on a concrete store. -/
theorem C5_round_trip_witness :
    (sendFriendRequest usersDB "alice" "bob@x.com").res = .ok ⟨true, none⟩ ∧
    (unfriend (acceptFriendRequest (sendFriendRequest usersDB "alice" "bob@x.com").db
      "bob" (pairKey "alice" "bob")).db "alice" "bob").db.friendships
        (pairKey "alice" "bob") = none ∧
    (unfriend (acceptFriendRequest (sendFriendRequest usersDB "alice" "bob@x.com").db
      "bob" (pairKey "alice" "bob")).db "alice" "bob").archives =
      [(pairKey "alice" "bob", "alice"), (pairKey "alice" "bob", "bob")] := by
  have h := C5_round_trip usersDB "alice" "bob" "bob@x.com" ⟨"bob", "bob@x.com"⟩
    (by decide) (by decide) (by decide) (by decide) (by decide) (by decide)
    (by decide) (by decide)
  exact ⟨h.1, h.2.2.2.2.2.1, h.2.2.2.2.2.2.2.2.2.2⟩

/-! ### Claim C6 -/

/-- C6, amended.  For a blocked Relationship, `unblockUser` called by an
actor who is not `blockedBy` is rejected — not with a thrown
`PermissionDenied` error, but with the untyped returned object
`{success:false, error:"You did not block this user"}` — and changes no
record; called by the blocker it deletes the Relationship and both Mirrors
and records a `FriendshipEvent(unblock)`. -/
theorem C6_unblock_amended (db : DB) (actor target : String) (f : Friendship)
    (hTarget : target ≠ "")
    (hRel : db.friendships (pairKey actor target) = some f)
    (hStatus : f.status = "blocked") :
    (f.blockedBy ≠ some actor →
      (unblockUser db actor target).res = .ok ⟨false, some "You did not block this user"⟩ ∧
      (unblockUser db actor target).db = db ∧
      txWrites (unblockUser db actor target).tx = []) ∧
    (f.blockedBy = some actor →
      (unblockUser db actor target).res = .ok ⟨true, none⟩ ∧
      (unblockUser db actor target).db.friendships (pairKey actor target) = none ∧
      (unblockUser db actor target).db.mirrors actor target = none ∧
      (unblockUser db actor target).db.mirrors target actor = none ∧
      (unblockUser db actor target).db.events =
        db.events ++ [⟨pairKey actor target, "unblock", actor, target⟩]) := by
  constructor
  · intro hNe
    simp [unblockUser, hTarget, hRel, hStatus, hNe, txWrites]
  · intro hEq
    simp only [unblockUser, if_neg hTarget, hRel, hStatus]
    simp [hEq, DB.delFriendship, DB.delMirror, DB.addEvent]

/-- C6 counterexample.  The claim as stated fails: on a blocked Relationship
with `blockedBy = a`, `unblockUser` called by `b` does not produce a
`permission-denied` error — it returns `{success:false}` — though it does
leave the store unchanged. -/
theorem C6_unblock_counterexample :
    (unblockUser blockedDB "b" "a").res =
      .ok ⟨false, some "You did not block this user"⟩ ∧
    isPermissionDeniedError (unblockUser blockedDB "b" "a").res = false ∧
    (unblockUser blockedDB "b" "a").db.friendships "a_b" =
      some ⟨"a", "b", "blocked", none, some "a"⟩ := by
  decide

/-- C6 witness: both branches of the amended theorem on the concrete blocked
store. -/
theorem C6_unblock_witness :
    (unblockUser blockedDB "b" "a").db = blockedDB ∧
    (unblockUser blockedDB "a" "b").db.friendships (pairKey "a" "b") = none ∧
    (unblockUser blockedDB "a" "b").db.events =
      blockedDB.events ++ [⟨pairKey "a" "b", "unblock", "a", "b"⟩] := by
  refine ⟨?_, ?_, ?_⟩
  · exact ((C6_unblock_amended blockedDB "b" "a" ⟨"a", "b", "blocked", none, some "a"⟩
      (by decide) (by decide) (by decide)).1 (by decide)).2.1
  · exact ((C6_unblock_amended blockedDB "a" "b" ⟨"a", "b", "blocked", none, some "a"⟩
      (by decide) (by decide) (by decide)).2 (by decide)).2.1
  · exact ((C6_unblock_amended blockedDB "a" "b" ⟨"a", "b", "blocked", none, some "a"⟩
      (by decide) (by decide) (by decide)).2 (by decide)).2.2.2.2

/-! ### Claim C7 -/

/-- C7.  `sendFriendRequest` rejects self-targeting with `invalid-argument`;
an existing pending Relationship is rejected with an `already-exists` error
("Friend request already pending"), an accepted one with `already-exists`
("Already friends with this user"); a blocked Relationship is rejected with
`not-found` carrying exactly the error produced for a nonexistent user
("User not found"), making the two cases indistinguishable to the caller. -/
theorem C7_sendRequest_rejections (db : DB) (senderId email : String)
    (hEmail : email ≠ "") :
    (findUserByEmail db (jsTrim (jsToLower email)) = none →
      (sendFriendRequest db senderId email).res = .error ⟨"not-found", "User not found"⟩) ∧
    (∀ u, findUserByEmail db (jsTrim (jsToLower email)) = some u → u.uid = senderId →
      (sendFriendRequest db senderId email).res =
        .error ⟨"invalid-argument", "Cannot send friend request to yourself"⟩) ∧
    (∀ u f, findUserByEmail db (jsTrim (jsToLower email)) = some u → u.uid ≠ senderId →
      db.friendships (pairKey senderId u.uid) = some f →
      (f.status = "pending" →
        (sendFriendRequest db senderId email).res =
          .error ⟨"already-exists", "Friend request already pending"⟩) ∧
      (f.status = "accepted" →
        (sendFriendRequest db senderId email).res =
          .error ⟨"already-exists", "Already friends with this user"⟩) ∧
      (f.status = "blocked" →
        (sendFriendRequest db senderId email).res =
          .error ⟨"not-found", "User not found"⟩)) := by
  refine ⟨?_, ?_, ?_⟩
  · intro hNone
    simp [sendFriendRequest, hEmail, hNone]
  · intro u hU hSelf
    simp [sendFriendRequest, hEmail, hU, hSelf]
  · intro u f hU hSelf hRel
    refine ⟨?_, ?_, ?_⟩ <;> intro hStatus <;>
      simp [sendFriendRequest, hEmail, hU, hSelf, hRel, hStatus]

/-- C7 witness: the three rejection shapes on concrete stores; the blocked
case and the unknown-user case produce the identical error value. -/
theorem C7_sendRequest_rejections_witness :
    (sendFriendRequest emptyDB "alice" "ghost@x.com").res =
      .error ⟨"not-found", "User not found"⟩ ∧
    (sendFriendRequest usersDB "bob" "bob@x.com").res =
      .error ⟨"invalid-argument", "Cannot send friend request to yourself"⟩ ∧
    (sendFriendRequest blockedUsersDB "a" "b@x.com").res =
      .error ⟨"not-found", "User not found"⟩ := by
  refine ⟨?_, ?_, ?_⟩
  · exact (C7_sendRequest_rejections emptyDB "alice" "ghost@x.com" (by decide)).1
      (by decide)
  · exact (C7_sendRequest_rejections usersDB "bob" "bob@x.com" (by decide)).2.1
      ⟨"bob", "bob@x.com"⟩ (by decide) (by decide)
  · exact ((C7_sendRequest_rejections blockedUsersDB "a" "b@x.com" (by decide)).2.2
      ⟨"b", "b@x.com"⟩ ⟨"a", "b", "blocked", none, some "a"⟩
      (by decide) (by decide) (by decide)).2.2 (by decide)

/-! ### Claim C8 -/

/-- C8, amended.  The Reconciler is idempotent for every pair and every
starting state in which the pending Relationship's effective initiator
(`initiatorId`, falling back to `user1Id` when absent or empty) is one of
the two parties: running `repairFriendshipState` twice with no intervening
writes issues zero transactional writes on the second run. -/
theorem C8_repair_idempotent_amended (db : DB) (userId friendId : String)
    (hInit : ∀ f, db.friendships (pairKey userId friendId) = some f →
      f.status = "pending" → f.effInitiator = userId ∨ f.effInitiator = friendId) :
    writeCount (repairFriendshipState
      (repairFriendshipState db userId friendId).db userId friendId).tx = 0 := by
  by_cases hF : friendId = ""
  · simp [repairFriendshipState, hF, writeCount, txWrites]
  cases hRel : db.friendships (pairKey userId friendId) with
  | none =>
    have h1 : (repairFriendshipState db userId friendId).db = db := by
      simp [repairFriendshipState, hF, hRel]
    rw [h1]
    simp [repairFriendshipState, hF, hRel, writeCount, txWrites]
  | some f =>
    have hRel2 : (repairFriendshipState db userId friendId).db.friendships
        (pairKey userId friendId) = some f := by
      rw [repair_preserves_friendships]; exact hRel
    by_cases hAcc : f.status = "accepted"
    · obtain ⟨hm1, hm2, hchat⟩ :=
        repair_accepted_heals db userId friendId f hF hRel hAcc
      obtain ⟨m1, hm1e, hm1s⟩ := (mirrorStatusIs_eq _ _ _ _).mp hm1
      obtain ⟨m2, hm2e, hm2s⟩ := (mirrorStatusIs_eq _ _ _ _).mp hm2
      obtain ⟨c, hce⟩ := (chatExists_eq _ _).mp hchat
      generalize hg : (repairFriendshipState db userId friendId).db = db1 at hRel2 hm1e hm2e hce
      simp only [repairFriendshipState, if_neg hF, hRel2, hAcc, hm1e, hm2e, hce, reduceIte]
      simp [hm1s, hm2s, writeCount, txWrites]
    · by_cases hPend : f.status = "pending"
      · obtain ⟨hm1, hm2⟩ := repair_pending_heals db userId friendId f hF hRel hPend
          (hInit f hRel hPend)
        obtain ⟨m1, hm1e⟩ : ∃ m, (repairFriendshipState db userId friendId).db.mirrors
            userId friendId = some m := Option.isSome_iff_exists.mp hm1
        obtain ⟨m2, hm2e⟩ : ∃ m, (repairFriendshipState db userId friendId).db.mirrors
            friendId userId = some m := Option.isSome_iff_exists.mp hm2
        generalize hg : (repairFriendshipState db userId friendId).db = db1 at hRel2 hm1e hm2e
        simp only [repairFriendshipState, if_neg hF, hRel2, hPend, hAcc, hm1e, hm2e, reduceIte]
        by_cases hIU : f.effInitiator = userId
        · by_cases hfu : friendId = userId
          · simp [hIU, hfu, hm1e, hm2e, writeCount, txWrites]
          · simp [hIU, hfu, hm1e, hm2e, writeCount, txWrites]
        · simp [hIU, hm1e, hm2e, writeCount, txWrites]
      · have h1 : (repairFriendshipState db userId friendId).db = db := by
          simp [repairFriendshipState, hF, hRel, hAcc, hPend]
        rw [h1]
        simp [repairFriendshipState, hF, hRel, hAcc, hPend, writeCount, txWrites]

/-- C8 counterexample.  The claim as stated, over every starting state,
fails: on a pending Relationship whose stored `initiatorId` is a third
party `z`, the Reconciler checks one pair of Mirror documents but writes
another, so the second consecutive run again issues two writes instead of
zero. -/
theorem C8_repair_idempotent_counterexample :
    writeCount (repairFriendshipState
      (repairFriendshipState pendingCorruptDB "a" "b").db "a" "b").tx = 2 := by
  decide

/-- C8 witness: a second consecutive repair on a well-formed pending
Relationship issues zero writes. -/
theorem C8_repair_idempotent_witness :
    writeCount (repairFriendshipState
      (repairFriendshipState pendingDB "a" "b").db "a" "b").tx = 0 := by
  apply C8_repair_idempotent_amended
  intro f hf _
  rw [show pendingDB.friendships (pairKey "a" "b") =
    some ⟨"a", "b", "pending", some "a", none⟩ from rfl] at hf
  injection hf with h
  subst h
  left; rfl

/-! ### Claim C9 -/

/-- C9.  `repairFriendshipState` never writes, downgrades or deletes the
canonical Relationship record — the `friendships` store is untouched and
every transactional write targets the Mirror or Conversation collections —
and when the Relationship is entirely absent it reports "No friendship
found" and performs no transactional operation at all. -/
theorem C9_repair_frame (db : DB) (userId friendId : String) :
    (repairFriendshipState db userId friendId).db.friendships = db.friendships ∧
    ((txWrites (repairFriendshipState db userId friendId).tx).all
      (fun op => op.coll = "userFriendships" || op.coll = "chats")) = true ∧
    (friendId ≠ "" → db.friendships (pairKey userId friendId) = none →
      (repairFriendshipState db userId friendId).res = .ok ⟨false, some "No friendship found"⟩ ∧
      (repairFriendshipState db userId friendId).db = db ∧
      (repairFriendshipState db userId friendId).tx = []) := by
  refine ⟨repair_preserves_friendships db userId friendId, ?_, ?_⟩
  · simp only [repairFriendshipState]
    repeat' split
    all_goals simp [txWrites, mirrorKey]
  · intro h1 h2
    simp only [repairFriendshipState, h1, h2]
    simp

/-- C9 witness: repair on an empty store reports nothing to repair and
performs no transactional operation. -/
theorem C9_repair_frame_witness :
    (repairFriendshipState emptyDB "a" "b").res =
      .ok ⟨false, some "No friendship found"⟩ ∧
    (repairFriendshipState emptyDB "a" "b").tx = [] := by
  have h := (C9_repair_frame emptyDB "a" "b").2.2 (by decide) (by decide)
  exact ⟨h.1, h.2.2⟩

/-! ### Claim C10 -/

/-- C10.  Every transition operation is atomic on rejection: each call either
returns the full success value `{success:true}`, or the document stores are
exactly as before, the transaction issued no write, and no archival
side effect was scheduled.  All precondition checks run before any write is
issued. -/
theorem C10_atomic_on_rejection (db : DB) (actorId otherArg : String) :
    ((acceptFriendRequest db actorId otherArg).res = .ok ⟨true, none⟩ ∨
      ((acceptFriendRequest db actorId otherArg).db = db ∧
       txWrites (acceptFriendRequest db actorId otherArg).tx = [] ∧
       (acceptFriendRequest db actorId otherArg).archives = [])) ∧
    ((rejectFriendRequest db actorId otherArg).res = .ok ⟨true, none⟩ ∨
      ((rejectFriendRequest db actorId otherArg).db = db ∧
       txWrites (rejectFriendRequest db actorId otherArg).tx = [] ∧
       (rejectFriendRequest db actorId otherArg).archives = [])) ∧
    ((unfriend db actorId otherArg).res = .ok ⟨true, none⟩ ∨
      ((unfriend db actorId otherArg).db = db ∧
       txWrites (unfriend db actorId otherArg).tx = [] ∧
       (unfriend db actorId otherArg).archives = [])) ∧
    ((blockUser db actorId otherArg).res = .ok ⟨true, none⟩ ∨
      ((blockUser db actorId otherArg).db = db ∧
       txWrites (blockUser db actorId otherArg).tx = [] ∧
       (blockUser db actorId otherArg).archives = [])) ∧
    ((unblockUser db actorId otherArg).res = .ok ⟨true, none⟩ ∨
      ((unblockUser db actorId otherArg).db = db ∧
       txWrites (unblockUser db actorId otherArg).tx = [] ∧
       (unblockUser db actorId otherArg).archives = [])) := by
  refine ⟨?_, ?_, ?_, ?_, ?_⟩
  · simp only [acceptFriendRequest]
    repeat' split
    all_goals simp [txWrites]
  · simp only [rejectFriendRequest]
    repeat' split
    all_goals simp [txWrites]
  · simp only [unfriend]
    repeat' split
    all_goals simp [txWrites]
  · simp only [blockUser]
    repeat' split
    all_goals simp [txWrites]
  · simp only [unblockUser]
    repeat' split
    all_goals simp [txWrites]

end Albondigas
